import Mathlib

/-!
Verification of the bg3-hud-dnd5e adapter (a D&D 5e plugin for the BG3 HUD
Foundry VTT module) against its natural-language specification.

The JavaScript sources are shallowly embedded: each adapter operation becomes a
pure Lean function over explicit environment and world records; host-provided
asynchronous operations (`fromUuid`, `createEmbeddedDocuments`, `item.use()`,
compendium index loading, dialogs) become parameters or explicit data, and the
observable effects of an operation (UI notifications, console warnings, setting
writes, state saves, delays) are collected into explicit effect traces.
-/

namespace BG3Hud

/-! ### JavaScript string and object primitives -/

/-- Little-endian base-10 digit list of `n`, computed with explicit fuel so
that it is structurally recursive (and hence kernel-evaluable); with fuel at
least `n` it agrees with `Nat.digits 10 n`. -/
def natDigitsRev : Nat → Nat → List Nat
  | _, 0 => []
  | 0, _ + 1 => []
  | fuel + 1, n + 1 => (n + 1) % 10 :: natDigitsRev fuel ((n + 1) / 10)

/-- Character list of the decimal rendering of a natural number, as produced by
JavaScript template-literal conversion of a nonnegative integer
(most-significant digit first, and `0` renders as "0"). -/
def natDecimalChars (n : Nat) : List Char :=
  if n = 0 then ['0'] else ((natDigitsRev n n).map Nat.digitChar).reverse

/-- The hotbar/container slot key string built by the sources as the template
literal of `col` and `row` joined by a dash (col-row order). -/
def slotKey (c r : Nat) : String :=
  ⟨natDecimalChars c ++ '-' :: natDecimalChars r⟩

/-- JavaScript object property assignment `obj[k] = v` on an object modelled as
an association list: overwrite the entry when the key is present, append a new
entry otherwise. -/
def jsSet {α : Type} (m : List (String × α)) (k : String) (v : α) :
    List (String × α) :=
  if m.any (fun p => p.1 == k) then
    m.map (fun p => if p.1 == k then (k, v) else p)
  else
    m ++ [(k, v)]

/-- Slot key as computed by the quick-access population loop, whose column
count comes from persisted state: JavaScript `i % cols` and
`Math.floor(i / cols)` yield `NaN` when `cols` is `0`, so the key degenerates
to "NaN-NaN" in that case. -/
def jsSlotKey (cols i : Nat) : String :=
  if cols = 0 then "NaN-NaN" else slotKey (i % cols) (i / cols)

/-! ### Observable effects and outcomes -/

/-- Observable side effects the adapter code can emit. -/
inductive Eff
  | consoleWarn (msg : String)
  | consoleError (msg : String)
  | uiWarn (msg : String)
  | uiError (msg : String)
  | packLookup (packId : String)
  | setSetting (key : String) (uuids : List String)
deriving Repr, DecidableEq

/-- An effect is user-facing when it is a UI toast notification, as opposed to
a developer-console message or a host API call. -/
def Eff.isUserFacing : Eff → Bool
  | .uiWarn _ => true
  | .uiError _ => true
  | _ => false

/-- Whether a call returned normally or let an exception propagate. -/
inductive Outcome
  | normal
  | exn
deriving Repr, DecidableEq

/-! ### Item documents and the world state

`ItemData` is the plain-object form (`item.toObject()`) of a Foundry item
document, restricted to the fields the adapter reads or writes: the `_id`,
the name, whether a `use` method is available on the reconstructed document,
and the `_stats.exportSource` / `flags.exportSource` fields migrated by
`_useItem`. -/

structure ItemData where
  idOpt : Option String
  name : String
  hasUse : Bool
  hasStats : Bool
  statsExportSource : Option String
  flagsExportSource : Option String
deriving Repr, DecidableEq

/-- An item embedded in an actor's items collection, with its collection id. -/
structure EmbeddedItem where
  id : String
  data : ItemData
deriving Repr, DecidableEq

/-- The slice of the host world the adapter operations touch: the resolved
actor's embedded items collection and the source compendium pack's contents.
`createEmbeddedDocuments` / `deleteEmbeddedDocuments` are actor-scoped host
operations: they act on the actor items component only. -/
structure World where
  actorItems : List EmbeddedItem
  packItems : List ItemData
deriving Repr, DecidableEq

/-- Host operation `actor.createEmbeddedDocuments('Item', [data])`, which adds
a new embedded document with a host-assigned fresh id to the actor's items. -/
def createEmbedded (w : World) (freshId : String) (data : ItemData) : World :=
  { w with actorItems := w.actorItems ++ [⟨freshId, data⟩] }

/-- Host operation `actor.deleteEmbeddedDocuments('Item', [id])`. -/
def deleteEmbedded (w : World) (id : String) : World :=
  { w with actorItems := w.actorItems.filter (fun e => e.id != id) }

/-- Host query `actor.items.has(id)`. -/
def hasEmbedded (w : World) (id : String) : Bool :=
  w.actorItems.any (fun e => e.id == id)

/-- Behaviour of the host's `item.use({event})` call: whether it throws, and
how it transforms the actor's embedded items collection (a use may, e.g.,
consume and delete the very item being used). -/
structure UseBehavior where
  throws : Bool
  effect : List EmbeddedItem → List EmbeddedItem

/-! ### DnD5eAdapter._useItem (src/scripts/module.js lines 206-280) -/

/-- Inputs of a `_useItem` call that come from the host: the `fromUuid`
resolution result, whether the resolved document has a parent actor
(`resolved.parent`, i.e. it is embedded), and whether a fallback actor is
available (`ui.BG3HUD_APP?.currentActor` or a controlled token's actor). -/
structure UseEnv where
  resolved : Option ItemData
  resolvedParent : Bool
  fallbackActor : Bool

/-- Result of a `_useItem` call: outcome, emitted notifications, final world,
number of `item.use()` invocations, the id of the temporarily created embedded
clone (when one was created) and the document data passed to
`createEmbeddedDocuments` (when a creation happened). -/
structure UseResult where
  outcome : Outcome
  warns : List Eff
  world : World
  useCalls : Nat
  createdId : Option String
  createdData : Option ItemData
deriving Repr, DecidableEq

/-- The `_stats` migration `_useItem` performs on the cloned data: ensure a
`_stats` object exists, and move `flags.exportSource` into
`_stats.exportSource` when the former is set and the latter is not. -/
def migrateStats (d : ItemData) : ItemData :=
  let d := if d.hasStats then d else { d with hasStats := true }
  if d.flagsExportSource.isSome && !d.statsExportSource.isSome then
    { d with statsExportSource := d.flagsExportSource, flagsExportSource := none }
  else d

/-- The `delete data._id` step on the cloned data. -/
def removeId (d : ItemData) : ItemData :=
  { d with idOpt := none }

/-- Shallow embedding of `DnD5eAdapter._useItem`: resolve the uuid, pick the
actor (the item's parent when embedded, else a fallback), for compendium items
deep-clone the data, migrate `_stats`, drop `_id` and create a real embedded
document; call `use()` when available, and in a `finally` block delete the
temporarily created document if it is still in the collection; when `use` is
absent, delete the created document and warn. -/
def useItem (env : UseEnv) (w : World) (freshId : String) (beh : UseBehavior) :
    UseResult :=
  match env.resolved with
  | none => ⟨.normal, [.uiWarn "ItemNotFound"], w, 0, none, none⟩
  | some resolved =>
    let isEmbedded := env.resolvedParent
    if !(isEmbedded || env.fallbackActor) then
      ⟨.normal, [.uiWarn "ItemCannotBeUsed"], w, 0, none, none⟩
    else if isEmbedded then
      if resolved.hasUse then
        let w1 := { w with actorItems := beh.effect w.actorItems }
        ⟨if beh.throws then .exn else .normal, [], w1, 1, none, none⟩
      else
        ⟨.normal, [.uiWarn "ItemCannotBeUsed"], w, 0, none, none⟩
    else
      let data := removeId (migrateStats resolved)
      let w1 := createEmbedded w freshId data
      if data.hasUse then
        let w2 := { w1 with actorItems := beh.effect w1.actorItems }
        let w3 := if hasEmbedded w2 freshId then deleteEmbedded w2 freshId else w2
        ⟨if beh.throws then .exn else .normal, [], w3, 1, some freshId, some data⟩
      else
        let w2 := if hasEmbedded w1 freshId then deleteEmbedded w1 freshId else w1
        ⟨.normal, [.uiWarn "ItemCannotBeUsed"], w2, 0, some freshId, some data⟩

/-! ### CPR configuration (src/scripts/features/DnD5eCPRAutoPopulate.js 17-42) -/

/-- The configuration record returned by `getCPRConfig`. -/
structure CPRConfig where
  packName : String
  packId : String
  defaultActions : List String
  isModern : Bool
  settingsKey : String
deriving Repr, DecidableEq

/-- Shallow embedding of `getCPRConfig`: select the CPR actions pack, default
action names and settings key from the dnd5e `rulesVersion` setting. -/
def getCPRConfig (rulesVersion : String) : CPRConfig :=
  if rulesVersion = "modern" then
    { packName := "CPRActions2024"
      packId := "chris-premades.CPRActions2024"
      defaultActions := ["Dash", "Disengage", "Dodge", "Help", "Hide", "Ready"]
      isModern := true
      settingsKey := "selectedCPRActionsModern" }
  else
    { packName := "CPRActions"
      packId := "chris-premades.CPRActions"
      defaultActions := ["Dash", "Disengage", "Dodge", "Grapple", "Help", "Hide"]
      isModern := false
      settingsKey := "selectedCPRActionsLegacy" }

/-! ### DnD5eCPRAutoPopulate.initializeDefaultActions
(src/scripts/features/DnD5eCPRAutoPopulate.js 57-100) -/

/-- Host inputs of an `initializeDefaultActions` call: whether the
chris-premades module is active, the dnd5e rules version, the current value of
the versioned selection setting (`game.settings.get`, the registered default
being an empty array), the CPR pack's index as `(id, name)` entries (`none`
when `game.packs.get` finds no pack), and whether the awaited
`pack.getIndex()` call throws. -/
structure InitEnv where
  cprActive : Bool
  rulesVersion : String
  currentSelection : List String
  packIndex : Option (List (String × String))
  getIndexThrows : Bool

/-- Shallow embedding of `initializeDefaultActions`: skip when CPR is inactive
or the setting is already populated; look the pack up once, console-warn and
return when it is absent; otherwise read the index, find the id of each
default action name, and write the setting when any were found. The whole
lookup body is inside a `try`/`catch` that console-warns, so the call always
returns normally. -/
def initializeDefaultActions (env : InitEnv) : List Eff × Outcome :=
  if !env.cprActive then ([], .normal)
  else
    let cfg := getCPRConfig env.rulesVersion
    if env.currentSelection ≠ [] then ([], .normal)
    else
      match env.packIndex with
      | none =>
        ([.packLookup cfg.packId,
          .consoleWarn ("CPR pack " ++ cfg.packId ++ " not found")], .normal)
      | some idx =>
        if env.getIndexThrows then
          ([.packLookup cfg.packId,
            .consoleWarn "Failed to initialize default CPR actions"], .normal)
        else
          let defaultUuids := cfg.defaultActions.filterMap (fun nm =>
            (idx.find? (fun e => e.2 == nm)).map (fun e =>
              "Compendium." ++ cfg.packId ++ ".Item." ++ e.1))
          if defaultUuids ≠ [] then
            ([.packLookup cfg.packId,
              .setSetting cfg.settingsKey defaultUuids], .normal)
          else ([.packLookup cfg.packId], .normal)

/-! ### DnD5eCPRGenericActionsContainer._onClick
(src/scripts/components/containers/DnD5eCPRGenericActionsContainer.js
lines 303-357) -/

/-- The Generic Actions item name looked up on the actor for a rules
version. -/
def genericActionsItemName (rulesVersion : String) : String :=
  if rulesVersion = "modern" then "Generic Actions (2024)"
  else "Generic Actions (2014)"

/-- Host inputs of a Generic Actions button click: the dnd5e rules version and
the `fromUuid` resolution of the version-appropriate compendium Generic
Actions item. -/
structure ClickEnv where
  rulesVersion : String
  compendiumItem : Option ItemData

/-- Result of a Generic Actions click. The handler body is wrapped in a
`try`/`catch` that console-errors and shows a UI error toast, so the outcome
is always a normal return. -/
structure ClickResult where
  outcome : Outcome
  notifs : List Eff
  world : World
  useCalls : Nat
  createdData : Option ItemData
deriving Repr, DecidableEq

/-- Shallow embedding of `DnD5eCPRGenericActionsContainer._onClick`: find the
Generic Actions item on the actor by name; when absent, resolve the
compendium item (warn and return when that fails), deep-clone its data, drop
`_id` and create it as a permanent embedded document; then call `use()` when
available, else warn. A throwing `use()` is caught and surfaced as a console
error plus a UI error toast. -/
def cprGenericOnClick (env : ClickEnv) (w : World) (freshId : String)
    (beh : UseBehavior) : ClickResult :=
  let itemName := genericActionsItemName env.rulesVersion
  let useOn (w' : World) (created : Option ItemData) (hasUse : Bool) :
      ClickResult :=
    if hasUse then
      let w2 := { w' with actorItems := beh.effect w'.actorItems }
      if beh.throws then
        ⟨.normal,
         [.consoleError "Error using CPR Generic Actions",
          .uiError "CPRGenericActionsError"], w2, 1, created⟩
      else ⟨.normal, [], w2, 1, created⟩
    else ⟨.normal, [.uiWarn "ItemCannotBeUsed"], w', 0, created⟩
  match w.actorItems.find? (fun i => i.data.name == itemName) with
  | some actorItem => useOn w none actorItem.data.hasUse
  | none =>
    match env.compendiumItem with
    | none => ⟨.normal, [.uiWarn "CPRGenericActionsNotFound"], w, 0, none⟩
    | some ci =>
      let data := removeId ci
      let w1 := createEmbedded w freshId data
      useOn w1 (some data) data.hasUse

/-! ### getContainerContents
(src/scripts/components/containers/DnD5eCPRGenericActionsContainer.js,
container popover section, lines 414-461) -/

/-- A resolved D&D 5e item, restricted to the fields container cell data
reads: `uses` carries the raw `system.uses.value` / `system.uses.max` fields,
each possibly absent. -/
structure SrcItem where
  uuid : String
  name : String
  img : String
  quantity : Option Nat
  uses : Option (Option Nat × Option Nat)
deriving Repr, DecidableEq

/-- A hotbar/container grid cell datum. -/
structure CellData where
  uuid : String
  name : String
  img : String
  quantity : Nat
  uses : Option (Nat × Nat)
deriving Repr, DecidableEq

/-- The cell data built for one container content item: quantity defaults to 1
when `system.quantity` is absent or 0 (JavaScript `|| 1` on a falsy value),
and the uses pair defaults its components to 0. -/
def mkCell (it : SrcItem) : CellData :=
  { uuid := it.uuid
    name := it.name
    img := it.img
    quantity := match it.quantity with
      | some q => if q = 0 then 1 else q
      | none => 1
    uses := it.uses.map (fun u => (u.1.getD 0, u.2.getD 0)) }

/-- The grid data returned by `getContainerContents`. -/
structure GridData where
  rows : Nat
  cols : Nat
  items : List (String × CellData)
deriving Repr, DecidableEq

/-- One iteration of the `getContainerContents` loop over `system.contents`:
an unresolvable reference is skipped, a resolvable one is placed at the slot
key of the running counter and the counter is incremented. -/
def containerStep (resolve : String → Option SrcItem)
    (acc : List (String × CellData) × Nat) (ref : String) :
    List (String × CellData) × Nat :=
  match resolve ref with
  | none => acc
  | some it =>
    (jsSet acc.1 (slotKey (acc.2 % 5) (acc.2 / 5)) (mkCell it), acc.2 + 1)

/-- Shallow embedding of `getContainerContents`: a missing container yields a
3-by-5 empty grid; otherwise walk `system.contents` in order, skip references
`fromUuid` cannot resolve, place the i-th resolvable item (0-indexed counter
incremented only on success) at slot key `(i mod 5)-(i div 5)`, and size the
grid to 5 columns and `max 3 (ceil (count / 5))` rows. -/
def getContainerContents (container : Option (List String))
    (resolve : String → Option SrcItem) : GridData :=
  match container with
  | none => ⟨3, 5, []⟩
  | some contents =>
    let r := contents.foldl (containerStep resolve) ([], 0)
    ⟨max 3 ((r.2 + 4) / 5), 5, r.1⟩

/-- Placeholder item used to express positional list access totally. -/
def dummySrcItem : SrcItem := ⟨"", "", "", none, none⟩

/-! ### Advantage/disadvantage roll hooks (src/scripts/module.js 22-30,
584-626) -/

/-- The seven dnd5e pre-roll hook events the adapter listens to. -/
def ADVANTAGE_ROLL_EVENTS : List String :=
  ["dnd5e.preRollAttackV2",
   "dnd5e.preRollSavingThrowV2",
   "dnd5e.preRollSkillV2",
   "dnd5e.preRollAbilityCheckV2",
   "dnd5e.preRollConcentrationV2",
   "dnd5e.preRollDeathSaveV2",
   "dnd5e.preRollToolV2"]

/-- Host inputs of one advantage-hook invocation: module/setting gates, the
workflow actor and the HUD's current actor (by id; the source compares object
identity), the actor's `advState` and `advOnce` flags, and whether the
situational-bonuses component exposing `clearState` is mounted (it only
selects the clearing mechanism). -/
structure AdvEnv where
  midiActive : Bool
  settingEnabled : Bool
  workflowActor : Option String
  currentActor : Option String
  advState : Option String
  advOnce : Bool
  clearStateAvailable : Bool

/-- The mutable part of the dnd5e pre-roll configuration the hook touches. -/
structure RollConfig where
  advantage : Bool
  disadvantage : Bool
deriving Repr, DecidableEq

/-- Result of one hook invocation: the (possibly mutated) roll configuration
and whether the advantage state was cleared (via the component's
`clearState()` or by unsetting both actor flags). -/
structure AdvResult where
  config : RollConfig
  cleared : Bool
deriving Repr, DecidableEq

/-- Shallow embedding of the `handleRollAdvantage` closure registered on every
advantage roll event: bail unless midi-qol is active, the setting is on, a
workflow actor exists and it is the HUD's current actor; then apply `advBtn`
as advantage or `disBtn` as disadvantage (anything else returns with nothing
changed), and clear the state afterwards when `advOnce` is set. -/
def handleRollAdvantage (env : AdvEnv) (cfg : RollConfig) : AdvResult :=
  if !env.midiActive then ⟨cfg, false⟩
  else if !env.settingEnabled then ⟨cfg, false⟩
  else
    match env.workflowActor with
    | none => ⟨cfg, false⟩
    | some wa =>
      match env.currentActor with
      | none => ⟨cfg, false⟩
      | some ca =>
        if ca ≠ wa then ⟨cfg, false⟩
        else if env.advState = some "advBtn" then
          ⟨{ cfg with advantage := true }, env.advOnce⟩
        else if env.advState = some "disBtn" then
          ⟨{ cfg with disadvantage := true }, env.advOnce⟩
        else ⟨cfg, false⟩

/-- Shallow embedding of `registerAdvantageHooks`: the same handler is
registered once on each of the seven pre-roll events. -/
def registerAdvantageHooks :
    List (String × (AdvEnv → RollConfig → AdvResult)) :=
  ADVANTAGE_ROLL_EVENTS.map (fun ev => (ev, handleRollAdvantage))

/-! ### DnD5eCPRAutoPopulate.populateQuickAccess and onTokenCreation
(src/scripts/features/DnD5eCPRAutoPopulate.js 108-244) -/

/-- One quick-access grid of the persisted HUD state. Items map slot key
strings to the stored cell uuid (the stored cell datum is
`{uuid, type: 'Item'}`). -/
structure QAGrid where
  rows : Nat
  cols : Nat
  items : List (String × String)
deriving Repr, DecidableEq

/-- The persisted HUD state, restricted to the quick-access component:
`none` models a state whose `quickAccess.grids` is missing or not an
array. -/
structure HudState where
  quickAccessGrids : Option (List QAGrid)
deriving Repr, DecidableEq

/-- The default quick-access grid created when the structure is missing. -/
def defaultQAGrid : QAGrid := ⟨2, 3, []⟩

/-- Trace events of the CPR auto-population code, in emission order. -/
inductive QEv
  | loadState
  | resolveUuid (u : String)
  | saveState
  | delayMs (n : Nat)
  | refreshHUD
  | readCPRConfig
  | packLookup
  | consoleWarnEv
  | consoleErrorEv
deriving Repr, DecidableEq

/-- Host inputs of a `populateQuickAccess` call: whether the actor argument is
non-null, whether the HUD is currently showing this actor, the `fromUuid`
resolution of action uuids to item names, the `localeCompare`-is-nonpositive
ordering on names used by the sort comparator, and the state returned by
`loadState`. -/
structure PopEnv where
  actorPresent : Bool
  currentActorMatches : Bool
  resolve : String → Option String
  nameLe : String → String → Bool
  loaded : HudState

/-- Result of a `populateQuickAccess` call: the state passed to `saveState`
(`none` when `saveState` was never called) and the emitted event trace. The
body is wrapped in a `try`/`catch`, so the call always returns normally. -/
structure PopResult where
  savedState : Option HudState
  trace : List QEv
deriving Repr, DecidableEq

/-- The resolution step of `populateQuickAccess`: each action uuid is resolved
through `fromUuid` and kept as a `(uuid, name)` pair when it resolves,
unresolvable uuids being dropped. -/
def resolvedActions (env : PopEnv) (actionUuids : List String) :
    List (String × String) :=
  actionUuids.filterMap (fun u => (env.resolve u).map (fun nm => (u, nm)))

/-- The sort step of `populateQuickAccess`: resolved actions stably sorted
with the `localeCompare`-based name comparator (JavaScript `Array.sort` is a
stable comparator sort; a stable insertion sort models it). -/
def sortedActions (env : PopEnv) (actionUuids : List String) :
    List (String × String) :=
  List.insertionSort (fun a b => env.nameLe a.2 b.2 = true)
    (resolvedActions env actionUuids)

/-- Shallow embedding of `populateQuickAccess`: return at once without loading
when the actor or the uuid list is empty; load the state and return without
saving when quick-access grid 0 already has items; otherwise resolve each
uuid (dropping unresolvable ones), sort the resolved actions by name, ensure
the quick-access structure exists (a missing structure gets one default 2x3
grid), write up to 6 sorted uuids into grid 0 at `col-row` slot keys, save
the state, await a 50 ms delay, and refresh the HUD when it shows this actor.
Reading `grids[0]` of a present-but-empty grids array throws a TypeError that
the surrounding `catch` turns into a console error. -/
def populateQuickAccess (env : PopEnv) (actionUuids : List String) :
    PopResult :=
  if !env.actorPresent || actionUuids.isEmpty then ⟨none, []⟩
  else
    let existing := match env.loaded.quickAccessGrids with
      | some (g :: _) => g.items
      | _ => []
    if !existing.isEmpty then ⟨none, [.loadState]⟩
    else
      let resolveEvs := actionUuids.map QEv.resolveUuid
      let sortedUuids := (sortedActions env actionUuids).map Prod.fst
      let effGrids := match env.loaded.quickAccessGrids with
        | some gs => gs
        | none => [defaultQAGrid]
      match effGrids with
      | [] => ⟨none, .loadState :: resolveEvs ++ [.consoleErrorEv]⟩
      | g :: rest =>
        let maxActions := min sortedUuids.length 6
        let newItems := (List.range maxActions).foldl
          (fun m i => jsSet m (jsSlotKey g.cols i) (sortedUuids.getD i ""))
          g.items
        let st : HudState := ⟨some ({ g with items := newItems } :: rest)⟩
        ⟨some st,
         .loadState :: resolveEvs ++ [.saveState, .delayMs 50] ++
           (if env.currentActorMatches then [.refreshHUD] else [])⟩

/-- Host inputs of an `onTokenCreation` call: the actor, the auto-populate
setting, CPR activity, the rules version, the stored selected-actions setting,
the CPR pack index for the fallback path (`none` when the pack is absent),
whether `getIndex` throws, and the environment of the nested
`populateQuickAccess` call. -/
structure TokEnv where
  actorPresent : Bool
  enableAutoPopulate : Bool
  cprActive : Bool
  rulesVersion : String
  selectedActions : List String
  packIndex : Option (List (String × String))
  getIndexThrows : Bool
  popEnv : PopEnv

/-- Shallow embedding of `onTokenCreation`: after the guard settings pass,
always await a fixed 200 ms delay, then read the CPR configuration; populate
from the GM-selected actions (first 6) when any are stored, else fall back to
the first 6 pack-index actions sorted by name. Host errors inside the `try`
are caught and console-logged. -/
def onTokenCreation (env : TokEnv) : List QEv :=
  if !env.actorPresent then []
  else if !env.enableAutoPopulate then []
  else if !env.cprActive then []
  else
    let cfg := getCPRConfig env.rulesVersion
    let pre := [QEv.delayMs 200, QEv.readCPRConfig]
    if env.selectedActions.isEmpty then
      match env.packIndex with
      | none => pre ++ [.packLookup, .consoleWarnEv]
      | some idx =>
        if env.getIndexThrows then pre ++ [.packLookup, .consoleErrorEv]
        else
          let actions := List.insertionSort
            (fun a b => env.popEnv.nameLe a.2 b.2 = true)
            (idx.map (fun e =>
              ("Compendium." ++ cfg.packId ++ ".Item." ++ e.1, e.2)))
          let actionUuids := (actions.take 6).map Prod.fst
          pre ++ [.packLookup] ++
            (populateQuickAccess env.popEnv actionUuids).trace
    else
      pre ++
        (populateQuickAccess env.popEnv (env.selectedActions.take 6)).trace

/-! ### showRestDialog (src/scripts/components/ui/RestDialog.js 14-39) -/

/-- The rest abilities of an actor: whether `shortRest` / `longRest` are
functions on it. -/
structure RestActor where
  hasShortRest : Bool
  hasLongRest : Bool
deriving Repr, DecidableEq

/-- Observable events of a `showRestDialog` call. -/
inductive RestEv
  | dialogShown (actions : List String)
  | shortRest
  | longRest
deriving Repr, DecidableEq

/-- Shallow embedding of `showRestDialog`: return at once for a missing actor;
otherwise show a button-choice dialog offering the actions `short` and `long`,
and run the matching rest for the returned choice (`none` models a
cancelled/closed dialog, which runs neither). -/
def showRestDialog (actor : Option RestActor) (choice : Option String) :
    List RestEv :=
  match actor with
  | none => []
  | some a =>
    RestEv.dialogShown ["short", "long"] ::
      (if choice = some "short" && a.hasShortRest then [RestEv.shortRest]
       else if choice = some "long" && a.hasLongRest then [RestEv.longRest]
       else [])

/-! ### The bg3HudReady handler (src/scripts/module.js 47-137) -/

/-- Steps the `bg3HudReady` hook handler performs, in order. -/
inductive RegEv
  | consoleWarnReg
  | registerHandlebars
  | registerPortraitContainer
  | registerPassivesContainer
  | registerWeaponSetContainer
  | registerActionButtonsContainer
  | registerFilterContainer
  | registerInfoContainer
  | registerContainer (key : String)
  | registerAdapter
  | registerMenuBuilder (key : String)
  | registerTooltipRenderer (key : String)
  | consoleErrorReg
  | initializeDefaultCPRActionsEv
  | callRegistrationComplete
  | registerAdvantageHooksEv
deriving Repr, DecidableEq

/-- Whether a handler step registers a component with the BG3 HUD core API. -/
def RegEv.isRegistration : RegEv → Bool
  | .registerPortraitContainer => true
  | .registerPassivesContainer => true
  | .registerWeaponSetContainer => true
  | .registerActionButtonsContainer => true
  | .registerFilterContainer => true
  | .registerInfoContainer => true
  | .registerContainer _ => true
  | .registerAdapter => true
  | .registerMenuBuilder _ => true
  | .registerTooltipRenderer _ => true
  | _ => false

/-- Shallow embedding of the `bg3HudReady` hook handler: when the active game
system is not dnd5e, console-warn and return before doing anything else;
otherwise register the Handlebars helpers, every container, the adapter, the
menu builder and (when the tooltip manager is available) the tooltip renderer,
then initialize default CPR actions, signal completion and register the
advantage hooks. -/
def bg3HudReadyHandler (systemId : String) (tooltipManagerAvailable : Bool) :
    List RegEv :=
  if systemId ≠ "dnd5e" then [.consoleWarnReg]
  else
    [.registerHandlebars,
     .registerPortraitContainer,
     .registerPassivesContainer,
     .registerWeaponSetContainer,
     .registerActionButtonsContainer,
     .registerFilterContainer,
     .registerInfoContainer,
     .registerContainer "situationalBonuses",
     .registerContainer "cprGenericActions",
     .registerAdapter,
     .registerMenuBuilder "dnd5e"] ++
    (if tooltipManagerAvailable then [.registerTooltipRenderer "dnd5e"]
     else [.consoleErrorReg]) ++
    [.initializeDefaultCPRActionsEv,
     .callRegistrationComplete,
     .registerAdvantageHooksEv]

/-! ### Helper lemmas: slot keys are injective, so the placement loops build
exactly one entry per placed item -/

theorem digitChar_ne_dash : ∀ d < 10, Nat.digitChar d ≠ '-' := by decide

theorem digitChar_injOn :
    ∀ d < 10, ∀ e < 10, Nat.digitChar d = Nat.digitChar e → d = e := by decide

theorem natDigitsRev_eq :
    ∀ (fuel n : Nat), n ≤ fuel → natDigitsRev fuel n = Nat.digits 10 n := by
  intro fuel
  induction fuel with
  | zero =>
    intro n hn
    have h0 : n = 0 := by omega
    subst h0
    simp [natDigitsRev]
  | succ fuel ih =>
    intro n hn
    match n with
    | 0 => simp [natDigitsRev]
    | m + 1 =>
      rw [natDigitsRev]
      rw [ih ((m + 1) / 10) (by
        have := Nat.div_lt_self (Nat.succ_pos m) (by norm_num : 1 < 10)
        omega)]
      rw [Nat.digits_of_two_le_of_pos (by norm_num) (Nat.succ_pos m)]

theorem natDecimalChars_eq (n : Nat) :
    natDecimalChars n =
      if n = 0 then ['0']
      else ((Nat.digits 10 n).map Nat.digitChar).reverse := by
  rw [natDecimalChars, natDigitsRev_eq n n (Nat.le_refl n)]

theorem mem_natDecimalChars_ne_dash (n : Nat) :
    ∀ c ∈ natDecimalChars n, c ≠ '-' := by
  intro c hc
  rw [natDecimalChars_eq] at hc
  split at hc
  · simp only [List.mem_singleton] at hc
    subst hc; decide
  · simp only [List.mem_reverse, List.mem_map] at hc
    obtain ⟨d, hd, rfl⟩ := hc
    exact digitChar_ne_dash d (Nat.digits_lt_base (by norm_num) hd)

theorem map_digitChar_inj :
    ∀ (l1 l2 : List Nat), (∀ d ∈ l1, d < 10) → (∀ d ∈ l2, d < 10) →
      l1.map Nat.digitChar = l2.map Nat.digitChar → l1 = l2 := by
  intro l1
  induction l1 with
  | nil =>
    intro l2 _ _ h
    cases l2 with
    | nil => rfl
    | cons b l2 => simp at h
  | cons a l1 ih =>
    intro l2 h1 h2 h
    cases l2 with
    | nil => simp at h
    | cons b l2 =>
      simp only [List.map_cons, List.cons.injEq] at h
      have hab : a = b :=
        digitChar_injOn a (h1 a (by simp)) b (h2 b (by simp)) h.1
      have := ih l2 (fun d hd => h1 d (by simp [hd]))
        (fun d hd => h2 d (by simp [hd])) h.2
      simp [hab, this]

theorem natDecimalChars_inj {m n : Nat}
    (h : natDecimalChars m = natDecimalChars n) : m = n := by
  rw [natDecimalChars_eq, natDecimalChars_eq] at h
  by_cases hm : m = 0 <;> by_cases hn : n = 0
  · omega
  · exfalso
    simp only [hm, if_pos rfl, if_neg hn] at h
    have hmap : (Nat.digits 10 n).map Nat.digitChar = ['0'] := by
      have := congrArg List.reverse h
      simpa using this.symm
    have hd : Nat.digits 10 n = [0] := by
      apply map_digitChar_inj _ [0]
      · intro d hd; exact Nat.digits_lt_base (by norm_num) hd
      · intro d hd; simp at hd; omega
      · simpa using hmap
    have := Nat.ofDigits_digits 10 n
    rw [hd] at this
    simp [Nat.ofDigits] at this
    omega
  · exfalso
    simp only [hn, if_neg hm, if_pos rfl] at h
    have hmap : (Nat.digits 10 m).map Nat.digitChar = ['0'] := by
      have := congrArg List.reverse h
      simpa using this
    have hd : Nat.digits 10 m = [0] := by
      apply map_digitChar_inj _ [0]
      · intro d hd; exact Nat.digits_lt_base (by norm_num) hd
      · intro d hd; simp at hd; omega
      · simpa using hmap
    have := Nat.ofDigits_digits 10 m
    rw [hd] at this
    simp [Nat.ofDigits] at this
    omega
  · simp only [if_neg hm, if_neg hn] at h
    have hmap := congrArg List.reverse h
    simp only [List.reverse_reverse] at hmap
    have := map_digitChar_inj (Nat.digits 10 m) (Nat.digits 10 n)
      (fun d hd => Nat.digits_lt_base (by norm_num) hd)
      (fun d hd => Nat.digits_lt_base (by norm_num) hd) hmap
    exact Nat.digits_inj_iff.mp this

theorem append_dash_inj :
    ∀ (l1 l2 t1 t2 : List Char), (∀ c ∈ l1, c ≠ '-') → (∀ c ∈ l2, c ≠ '-') →
      l1 ++ '-' :: t1 = l2 ++ '-' :: t2 → l1 = l2 ∧ t1 = t2 := by
  intro l1
  induction l1 with
  | nil =>
    intro l2 t1 t2 _ h2 h
    cases l2 with
    | nil => simpa using h
    | cons b l2 =>
      exfalso
      simp only [List.nil_append, List.cons_append, List.cons.injEq] at h
      exact h2 b (by simp) h.1.symm
  | cons a l1 ih =>
    intro l2 t1 t2 h1 h2 h
    cases l2 with
    | nil =>
      exfalso
      simp only [List.cons_append, List.nil_append, List.cons.injEq] at h
      exact h1 a (by simp) h.1
    | cons b l2 =>
      simp only [List.cons_append, List.cons.injEq] at h
      obtain ⟨heq, hteq⟩ := ih l2 t1 t2 (fun c hc => h1 c (by simp [hc]))
        (fun c hc => h2 c (by simp [hc])) h.2
      simp [h.1, heq, hteq]

theorem slotKey_inj {c r c' r' : Nat} (h : slotKey c r = slotKey c' r') :
    c = c' ∧ r = r' := by
  unfold slotKey at h
  have hdata : natDecimalChars c ++ '-' :: natDecimalChars r =
      natDecimalChars c' ++ '-' :: natDecimalChars r' :=
    congrArg String.data h
  obtain ⟨h1, h2⟩ := append_dash_inj _ _ _ _
    (mem_natDecimalChars_ne_dash c) (mem_natDecimalChars_ne_dash c') hdata
  exact ⟨natDecimalChars_inj h1, natDecimalChars_inj h2⟩

theorem slotKey_mod_div_inj {cols i j : Nat}
    (h : slotKey (i % cols) (i / cols) = slotKey (j % cols) (j / cols)) :
    i = j := by
  obtain ⟨h1, h2⟩ := slotKey_inj h
  have hi := Nat.div_add_mod i cols
  have hj := Nat.div_add_mod j cols
  rw [h1, h2] at hi
  omega

theorem slotKey_fold_fresh {α : Type} (cols n : Nat) (f : Nat → α) :
    (((List.range n).map
        (fun i => (slotKey (i % cols) (i / cols), f i))).any
      (fun p => p.1 == slotKey (n % cols) (n / cols))) = false := by
  rw [List.any_eq_false]
  intro p hp
  simp only [List.mem_map, List.mem_range] at hp
  obtain ⟨i, hi, rfl⟩ := hp
  intro h
  rw [beq_iff_eq] at h
  have := slotKey_mod_div_inj h
  omega

theorem foldRange_jsSet {α : Type} (cols : Nat) (f : Nat → α) :
    ∀ n, (List.range n).foldl
        (fun m i => jsSet m (slotKey (i % cols) (i / cols)) (f i)) [] =
      (List.range n).map (fun i => (slotKey (i % cols) (i / cols), f i)) := by
  intro n
  induction n with
  | zero => simp
  | succ n ih =>
    rw [List.range_succ, List.foldl_append, List.map_append, ih]
    simp only [List.foldl_cons, List.foldl_nil, List.map_cons, List.map_nil]
    rw [jsSet, if_neg]
    rw [slotKey_fold_fresh cols n f]
    simp

theorem containerFold (resolve : String → Option SrcItem) :
    ∀ (contents : List String) (n : Nat) (f : Nat → CellData),
      (∀ j, j < (contents.filterMap resolve).length →
        f (n + j) = mkCell ((contents.filterMap resolve).getD j dummySrcItem)) →
      contents.foldl (containerStep resolve)
        ((List.range n).map (fun i => (slotKey (i % 5) (i / 5), f i)), n) =
      ((List.range (n + (contents.filterMap resolve).length)).map
          (fun i => (slotKey (i % 5) (i / 5), f i)),
        n + (contents.filterMap resolve).length) := by
  intro contents
  induction contents with
  | nil => intro n f _; simp
  | cons ref rest ih =>
    intro n f hf
    rw [List.foldl_cons]
    rcases hres : resolve ref with _ | it
    · rw [containerStep, hres]
      have hfm : (ref :: rest).filterMap resolve = rest.filterMap resolve := by
        simp [List.filterMap_cons, hres]
      rw [hfm] at hf
      simpa [hfm] using ih n f hf
    · simp only [containerStep, hres]
      have hfm : (ref :: rest).filterMap resolve =
          it :: rest.filterMap resolve := by
        simp [List.filterMap_cons, hres]
      have hf0 : f n = mkCell it := by
        have h0 := hf 0 (by rw [hfm]; simp)
        simpa [hfm] using h0
      have hfresh := slotKey_fold_fresh 5 n f
      have hstep : jsSet
          ((List.range n).map (fun i => (slotKey (i % 5) (i / 5), f i)))
          (slotKey (n % 5) (n / 5)) (mkCell it) =
          (List.range (n + 1)).map
            (fun i => (slotKey (i % 5) (i / 5), f i)) := by
        rw [jsSet, if_neg]
        · rw [List.range_succ, List.map_append]
          simp [hf0]
        · rw [hfresh]; simp
      rw [hstep]
      have hrec := ih (n + 1) f (by
        intro j hj
        have hj1 := hf (j + 1) (by rw [hfm]; simpa using Nat.succ_lt_succ hj)
        rw [hfm] at hj1
        have harith : n + (j + 1) = n + 1 + j := by omega
        rw [harith] at hj1
        simpa using hj1)
      rw [hrec, hfm]
      have harith2 : n + 1 + (rest.filterMap resolve).length =
          n + ((rest.filterMap resolve).length + 1) := by omega
      rw [harith2]
      simp

theorem cleanup_removes (w : World) (fid : String) :
    ∀ e ∈ (if hasEmbedded w fid then deleteEmbedded w fid else w).actorItems,
      e.id ≠ fid := by
  intro e he h
  subst h
  split at he
  next hc =>
    simp only [deleteEmbedded, List.mem_filter] at he
    simp at he
  next hc =>
    exact hc (by
      rw [hasEmbedded, List.any_eq_true]
      exact ⟨e, he, by simp⟩)

theorem cleanup_packItems (w : World) (fid : String) :
    (if hasEmbedded w fid then deleteEmbedded w fid else w).packItems =
      w.packItems := by
  split <;> rfl

theorem hasUse_clone (r : ItemData) :
    (removeId (migrateStats r)).hasUse = r.hasUse := by
  simp only [removeId, migrateStats]
  split <;> split <;> rfl

/-- C3: for every compendium item (no parent actor) used with an available
actor, `_useItem` creates an embedded clone (with the host-assigned fresh id),
and after the call finishes — whether `use()` returned or threw, and whatever
`use()` did to the collection — no item the call created remains in the
actor's items collection. -/
theorem claim_C3 (env : UseEnv) (w : World) (freshId : String)
    (beh : UseBehavior) :
    (∀ r, env.resolved = some r → env.resolvedParent = false →
      env.fallbackActor = true →
      (useItem env w freshId beh).createdId = some freshId) ∧
    (∀ cid, (useItem env w freshId beh).createdId = some cid →
      ∀ e ∈ (useItem env w freshId beh).world.actorItems, e.id ≠ cid) := by
  constructor
  · intro r hr hp hf
    simp only [useItem, hr, hp, hf]
    by_cases hu : (removeId (migrateStats r)).hasUse = true <;> simp [hu]
  · intro cid hcid
    rcases hres : env.resolved with _ | r
    · simp [useItem, hres] at hcid
    · by_cases hp : env.resolvedParent = true
      · by_cases hu : r.hasUse = true
        · simp [useItem, hres, hp, hu] at hcid
        · simp only [Bool.not_eq_true] at hu
          simp [useItem, hres, hp, hu] at hcid
      · simp only [Bool.not_eq_true] at hp
        by_cases hf : env.fallbackActor = true
        · by_cases hu : (removeId (migrateStats r)).hasUse = true
          · simp only [useItem, hres, hp, hf, hu, Bool.or_false, Bool.false_or,
              Bool.not_true, Bool.false_eq_true, if_false, if_true] at hcid ⊢
            simp only [Option.some.injEq] at hcid
            subst hcid
            exact cleanup_removes _ _
          · simp only [Bool.not_eq_true] at hu
            simp only [useItem, hres, hp, hf, hu, Bool.or_false, Bool.false_or,
              Bool.not_true, Bool.false_eq_true, if_false, if_true] at hcid ⊢
            simp only [Option.some.injEq] at hcid
            subst hcid
            exact cleanup_removes _ _
        · simp only [Bool.not_eq_true] at hf
          simp [useItem, hres, hp, hf] at hcid

/-- C3 witness: a compendium potion used through a throwing `use()` gets a
clone created and no created item survives the call. -/
theorem claim_C3_witness :
    ((useItem ⟨some ⟨some "src0", "Potion", true, true, none, none⟩,
        false, true⟩ ⟨[], []⟩ "tmp1" ⟨true, fun l => l⟩).createdId =
      some "tmp1") ∧
    (∀ e ∈ (useItem ⟨some ⟨some "src0", "Potion", true, true, none, none⟩,
        false, true⟩ ⟨[], []⟩ "tmp1" ⟨true, fun l => l⟩).world.actorItems,
      e.id ≠ "tmp1") :=
  ⟨(claim_C3 _ _ _ _).1 _ rfl rfl rfl,
   (claim_C3 _ _ _ _).2 "tmp1"
     ((claim_C3 _ _ _ _).1 _ rfl rfl rfl)⟩

/-- C4: for every container and resolver, `getContainerContents` returns a
grid with 5 columns and `max 3 (ceil (k / 5))` rows where `k` is the number of
resolvable content references; the i-th resolvable content (in contents
order, skipping unresolvable entries with no gaps) sits at slot key
`(i mod 5)-(i div 5)`; a missing container yields the empty 3-by-5 grid. -/
theorem claim_C4 (resolve : String → Option SrcItem) (contents : List String) :
    getContainerContents none resolve = ⟨3, 5, []⟩ ∧
    getContainerContents (some contents) resolve =
      ⟨max 3 (((contents.filterMap resolve).length + 4) / 5), 5,
        (List.range (contents.filterMap resolve).length).map
          (fun i => (slotKey (i % 5) (i / 5),
            mkCell ((contents.filterMap resolve).getD i dummySrcItem)))⟩ := by
  refine ⟨rfl, ?_⟩
  have h := containerFold resolve contents 0
    (fun i => mkCell ((contents.filterMap resolve).getD i dummySrcItem))
    (fun j hj => by simp)
  simp only [List.range_zero, List.map_nil, Nat.zero_add] at h
  simp only [getContainerContents]
  rw [h]

/-- C7: neither `_useItem` nor the Generic Actions click ever changes the
compendium pack contents, and any embedded document either creates is the
deep clone of the resolved compendium item's data with its `_id` removed
(plus, for `_useItem`, the `_stats` migration). -/
theorem claim_C7 (uenv : UseEnv) (cenv : ClickEnv) (w w' : World)
    (fid fid' : String) (beh beh' : UseBehavior) :
    ((useItem uenv w fid beh).world.packItems = w.packItems) ∧
    (∀ r d, uenv.resolved = some r →
      (useItem uenv w fid beh).createdData = some d →
      d = removeId (migrateStats r) ∧ d.idOpt = none) ∧
    ((cprGenericOnClick cenv w' fid' beh').world.packItems = w'.packItems) ∧
    (∀ ci d, cenv.compendiumItem = some ci →
      (cprGenericOnClick cenv w' fid' beh').createdData = some d →
      d = removeId ci ∧ d.idOpt = none) := by
  refine ⟨?_, ?_, ?_, ?_⟩
  · rcases hres : uenv.resolved with _ | r
    · simp [useItem, hres]
    · by_cases hp : uenv.resolvedParent = true
      · by_cases hu : r.hasUse = true <;>
          simp [useItem, hres, hp, hu]
      · simp only [Bool.not_eq_true] at hp
        by_cases hf : uenv.fallbackActor = true
        · by_cases hu : (removeId (migrateStats r)).hasUse = true
          · simp [useItem, hres, hp, hf, hu, cleanup_packItems,
              createEmbedded]
          · simp only [Bool.not_eq_true] at hu
            simp [useItem, hres, hp, hf, hu, cleanup_packItems,
              createEmbedded]
        · simp only [Bool.not_eq_true] at hf
          simp [useItem, hres, hp, hf]
  · intro r d hres hd
    by_cases hp : uenv.resolvedParent = true
    · by_cases hu : r.hasUse = true
      · simp [useItem, hres, hp, hu] at hd
      · simp only [Bool.not_eq_true] at hu
        simp [useItem, hres, hp, hu] at hd
    · simp only [Bool.not_eq_true] at hp
      by_cases hf : uenv.fallbackActor = true
      · by_cases hu : (removeId (migrateStats r)).hasUse = true
        · simp only [useItem, hres, hp, hf, hu, Bool.or_false, Bool.false_or,
            Bool.not_true, Bool.false_eq_true, if_false, if_true,
            Option.some.injEq] at hd
          exact ⟨hd.symm, by rw [← hd]; rfl⟩
        · simp only [Bool.not_eq_true] at hu
          simp only [useItem, hres, hp, hf, hu, Bool.or_false, Bool.false_or,
            Bool.not_true, Bool.false_eq_true, if_false, if_true,
            Option.some.injEq] at hd
          exact ⟨hd.symm, by rw [← hd]; rfl⟩
      · simp only [Bool.not_eq_true] at hf
        simp [useItem, hres, hp, hf] at hd
  · rcases hfind : w'.actorItems.find?
        (fun i => i.data.name == genericActionsItemName cenv.rulesVersion)
      with _ | a
    · rcases hc : cenv.compendiumItem with _ | ci
      · simp [cprGenericOnClick, hfind, hc]
      · by_cases hu : (removeId ci).hasUse = true <;>
          by_cases ht : beh'.throws = true <;>
          simp [cprGenericOnClick, hfind, hc, hu, ht, createEmbedded]
    · by_cases hu : a.data.hasUse = true <;>
        by_cases ht : beh'.throws = true <;>
        simp [cprGenericOnClick, hfind, hu, ht]
  · intro ci d hc hd
    rcases hfind : w'.actorItems.find?
        (fun i => i.data.name == genericActionsItemName cenv.rulesVersion)
      with _ | a
    · by_cases hu : (removeId ci).hasUse = true <;>
        by_cases ht : beh'.throws = true <;>
        simp only [cprGenericOnClick, hfind, hc, hu, ht, Bool.false_eq_true,
          if_false, if_true] at hd <;>
        simp only [Option.some.injEq] at hd <;>
        exact ⟨hd.symm, by rw [← hd]; rfl⟩
    · by_cases hu : a.data.hasUse = true <;>
        by_cases ht : beh'.throws = true <;>
        simp [cprGenericOnClick, hfind, hu, ht] at hd

/-- C7 witness: using a concrete compendium potion leaves the pack unchanged
and creates exactly the id-less migrated clone. -/
theorem claim_C7_witness :
    ((useItem ⟨some ⟨some "id0", "Potion", true, false, none, some "exp"⟩,
        false, true⟩ ⟨[], [⟨some "id0", "Potion", true, false, none,
          some "exp"⟩]⟩ "t1" ⟨false, fun l => l⟩).world.packItems =
      [⟨some "id0", "Potion", true, false, none, some "exp"⟩]) ∧
    ((useItem ⟨some ⟨some "id0", "Potion", true, false, none, some "exp"⟩,
        false, true⟩ ⟨[], [⟨some "id0", "Potion", true, false, none,
          some "exp"⟩]⟩ "t1" ⟨false, fun l => l⟩).createdData =
      some ⟨none, "Potion", true, true, some "exp", none⟩) ∧
    ((⟨none, "Potion", true, true, some "exp", none⟩ : ItemData) =
      removeId (migrateStats ⟨some "id0", "Potion", true, false, none,
        some "exp"⟩)) :=
  ⟨(claim_C7 ⟨some ⟨some "id0", "Potion", true, false, none, some "exp"⟩,
      false, true⟩ ⟨"modern", none⟩ ⟨[], [⟨some "id0", "Potion", true, false,
      none, some "exp"⟩]⟩ ⟨[], []⟩ "t1" "t2" ⟨false, fun l => l⟩
      ⟨false, fun l => l⟩).1,
   rfl,
   ((claim_C7 ⟨some ⟨some "id0", "Potion", true, false, none, some "exp"⟩,
      false, true⟩ ⟨"modern", none⟩ ⟨[], [⟨some "id0", "Potion", true, false,
      none, some "exp"⟩]⟩ ⟨[], []⟩ "t1" "t2" ⟨false, fun l => l⟩
      ⟨false, fun l => l⟩).2.1 _ _ rfl rfl).1⟩

/-- C5: the adapter registers the same advantage handler on exactly the seven
dnd5e pre-roll events; when midi-qol is active, the setting is enabled and the
HUD's current actor is the workflow actor, an `advState` of `advBtn` sets
advantage, `disBtn` sets disadvantage, any other value leaves the roll
configuration unchanged and skips the once-clearing step, and the state is
cleared exactly when `advOnce` is set and a state was applied. -/
theorem claim_C5 :
    (registerAdvantageHooks.map Prod.fst =
      ["dnd5e.preRollAttackV2", "dnd5e.preRollSavingThrowV2",
       "dnd5e.preRollSkillV2", "dnd5e.preRollAbilityCheckV2",
       "dnd5e.preRollConcentrationV2", "dnd5e.preRollDeathSaveV2",
       "dnd5e.preRollToolV2"]) ∧
    registerAdvantageHooks.length = 7 ∧
    (∀ p ∈ registerAdvantageHooks, p.2 = handleRollAdvantage) ∧
    (∀ (env : AdvEnv) (cfg : RollConfig) (a : String),
      env.midiActive = true → env.settingEnabled = true →
      env.workflowActor = some a → env.currentActor = some a →
      ((env.advState = some "advBtn" →
        handleRollAdvantage env cfg =
          ⟨{ cfg with advantage := true }, env.advOnce⟩) ∧
       (env.advState = some "disBtn" →
        handleRollAdvantage env cfg =
          ⟨{ cfg with disadvantage := true }, env.advOnce⟩) ∧
       (env.advState ≠ some "advBtn" → env.advState ≠ some "disBtn" →
        handleRollAdvantage env cfg = ⟨cfg, false⟩))) := by
  refine ⟨rfl, rfl, ?_, ?_⟩
  · intro p hp
    simp only [registerAdvantageHooks, List.mem_map] at hp
    obtain ⟨ev, _, rfl⟩ := hp
    rfl
  · intro env cfg a hm hs hw hc
    refine ⟨?_, ?_, ?_⟩
    · intro hst
      simp [handleRollAdvantage, hm, hs, hw, hc, hst]
    · intro hst
      simp [handleRollAdvantage, hm, hs, hw, hc, hst]
    · intro h1 h2
      simp [handleRollAdvantage, hm, hs, hw, hc, h1, h2]

/-- C5 witness: a concrete advantage-button roll with the once flag set gets
advantage applied and the state cleared. -/
theorem claim_C5_witness :
    handleRollAdvantage
      ⟨true, true, some "actor1", some "actor1", some "advBtn", true, true⟩
      ⟨false, false⟩ = ⟨⟨true, false⟩, true⟩ :=
  (claim_C5.2.2.2
    ⟨true, true, some "actor1", some "actor1", some "advBtn", true, true⟩
    ⟨false, false⟩ "actor1" rfl rfl rfl rfl).1 rfl

/-- C8: the rest dialog offers exactly the two choices `short` and `long`;
a `short` result runs `shortRest()` only, a `long` result runs `longRest()`
only, a cancelled dialog runs neither, and a missing actor returns without
showing any dialog. -/
theorem claim_C8 (a : RestActor) (choice : Option String)
    (hs : a.hasShortRest = true) (hl : a.hasLongRest = true) :
    (showRestDialog none choice = []) ∧
    ((showRestDialog (some a) choice).head? =
      some (.dialogShown ["short", "long"])) ∧
    (choice = some "short" →
      showRestDialog (some a) choice =
        [.dialogShown ["short", "long"], .shortRest]) ∧
    (choice = some "long" →
      showRestDialog (some a) choice =
        [.dialogShown ["short", "long"], .longRest]) ∧
    (choice = none →
      showRestDialog (some a) choice = [.dialogShown ["short", "long"]]) := by
  refine ⟨rfl, ?_, ?_, ?_, ?_⟩
  · simp [showRestDialog]
  · intro hc
    simp [showRestDialog, hc, hs]
  · intro hc
    simp [showRestDialog, hc, hl]
  · intro hc
    simp [showRestDialog, hc]

/-- C8 witness: a dnd5e actor choosing a short rest triggers exactly the
dialog and one `shortRest()` call. -/
theorem claim_C8_witness :
    showRestDialog (some ⟨true, true⟩) (some "short") =
      [.dialogShown ["short", "long"], .shortRest] :=
  (claim_C8 ⟨true, true⟩ (some "short") rfl rfl).2.2.1 rfl

/-- C10: the `bg3HudReady` handler performs its registrations only when the
active game system is dnd5e; any other system id makes it return right after
a console warning, with no registration at all. -/
theorem claim_C10 (systemId : String) (tm : Bool) :
    (systemId ≠ "dnd5e" →
      bg3HudReadyHandler systemId tm = [.consoleWarnReg] ∧
      ∀ e ∈ bg3HudReadyHandler systemId tm, e.isRegistration = false) ∧
    (∀ e ∈ bg3HudReadyHandler systemId tm,
      e.isRegistration = true → systemId = "dnd5e") ∧
    (systemId = "dnd5e" →
      .registerAdapter ∈ bg3HudReadyHandler systemId tm ∧
      .registerMenuBuilder "dnd5e" ∈ bg3HudReadyHandler systemId tm ∧
      .registerContainer "cprGenericActions" ∈ bg3HudReadyHandler systemId tm ∧
      (tm = true →
        .registerTooltipRenderer "dnd5e" ∈ bg3HudReadyHandler systemId tm)) := by
  refine ⟨?_, ?_, ?_⟩
  · intro hid
    constructor
    · simp [bg3HudReadyHandler, hid]
    · intro e he
      simp only [bg3HudReadyHandler, if_pos hid, List.mem_singleton] at he
      subst he
      rfl
  · intro e he hreg
    by_cases hid : systemId = "dnd5e"
    · exact hid
    · exfalso
      simp only [bg3HudReadyHandler, if_pos hid, List.mem_singleton] at he
      subst he
      simp [RegEv.isRegistration] at hreg
  · intro hid
    rcases tm with _ | _ <;>
      simp [bg3HudReadyHandler, hid]

/-- C10 witness: a Pathfinder 2e system id yields only the console warning and
no registration, while dnd5e registers the adapter. -/
theorem claim_C10_witness :
    (bg3HudReadyHandler "pf2e" true = [.consoleWarnReg]) ∧
    (.registerAdapter ∈ bg3HudReadyHandler "dnd5e" true) :=
  ⟨((claim_C10 "pf2e" true).1 (by decide)).1,
   ((claim_C10 "dnd5e" true).2.2 rfl).1⟩

/-- C1 counterexample: with chris-premades active, the selection setting empty
and the CPR pack absent, `initializeDefaultActions` emits only a console
warning and a single pack lookup — no user-facing (UI toast) warning or
notification at all — refuting the claim that every missing-lookup operation
emits a user-facing warning/notification. -/
theorem claim_C1_counterexample :
    ((⟨true, "legacy", [], none, false⟩ : InitEnv).packIndex = none) ∧
    ((initializeDefaultActions ⟨true, "legacy", [], none, false⟩).1.all
      (fun e => !e.isUserFacing) = true) ∧
    ((initializeDefaultActions ⟨true, "legacy", [], none, false⟩).1 =
      [.packLookup "chris-premades.CPRActions",
       .consoleWarn "CPR pack chris-premades.CPRActions not found"]) := by
  refine ⟨rfl, ?_, ?_⟩ <;> rfl

/-- C1 (amended): each missing-lookup operation warns — a console warning for
`initializeDefaultActions`' absent CPR pack, user-facing notifications for
`_useItem`'s unresolved item and the Generic Actions click's absent
compendium item — performs its lookup exactly once (no retry) and returns
normally without propagating an exception. -/
theorem claim_C1 (ienv : InitEnv) (uenv : UseEnv) (cenv : ClickEnv)
    (w w' : World) (fid fid' : String) (beh beh' : UseBehavior) :
    (ienv.cprActive = true → ienv.currentSelection = [] →
      ienv.packIndex = none →
      initializeDefaultActions ienv =
        ([.packLookup (getCPRConfig ienv.rulesVersion).packId,
          .consoleWarn ("CPR pack " ++ (getCPRConfig ienv.rulesVersion).packId
            ++ " not found")], .normal)) ∧
    (uenv.resolved = none →
      useItem uenv w fid beh =
        ⟨.normal, [.uiWarn "ItemNotFound"], w, 0, none, none⟩) ∧
    (w'.actorItems.find?
        (fun i => i.data.name == genericActionsItemName cenv.rulesVersion) =
        none →
      cenv.compendiumItem = none →
      cprGenericOnClick cenv w' fid' beh' =
        ⟨.normal, [.uiWarn "CPRGenericActionsNotFound"], w', 0, none⟩) := by
  refine ⟨?_, ?_, ?_⟩
  · intro ha hsel hpack
    simp [initializeDefaultActions, ha, hsel, hpack]
  · intro hres
    simp [useItem, hres]
  · intro hfind hc
    simp [cprGenericOnClick, hfind, hc]

/-- C1 witness: the three missing-lookup scenarios at concrete inputs. -/
theorem claim_C1_witness :
    (initializeDefaultActions ⟨true, "modern", [], none, false⟩ =
      ([.packLookup "chris-premades.CPRActions2024",
        .consoleWarn "CPR pack chris-premades.CPRActions2024 not found"],
       .normal)) ∧
    (useItem ⟨none, false, false⟩ ⟨[], []⟩ "f1" ⟨false, fun l => l⟩ =
      ⟨.normal, [.uiWarn "ItemNotFound"], ⟨[], []⟩, 0, none, none⟩) ∧
    (cprGenericOnClick ⟨"modern", none⟩ ⟨[], []⟩ "f2" ⟨false, fun l => l⟩ =
      ⟨.normal, [.uiWarn "CPRGenericActionsNotFound"], ⟨[], []⟩, 0, none⟩) :=
  ⟨(claim_C1 ⟨true, "modern", [], none, false⟩ ⟨none, false, false⟩
      ⟨"modern", none⟩ ⟨[], []⟩ ⟨[], []⟩ "f1" "f2" ⟨false, fun l => l⟩
      ⟨false, fun l => l⟩).1 rfl rfl rfl,
   (claim_C1 ⟨true, "modern", [], none, false⟩ ⟨none, false, false⟩
      ⟨"modern", none⟩ ⟨[], []⟩ ⟨[], []⟩ "f1" "f2" ⟨false, fun l => l⟩
      ⟨false, fun l => l⟩).2.1 rfl,
   (claim_C1 ⟨true, "modern", [], none, false⟩ ⟨none, false, false⟩
      ⟨"modern", none⟩ ⟨[], []⟩ ⟨[], []⟩ "f1" "f2" ⟨false, fun l => l⟩
      ⟨false, fun l => l⟩).2.2 rfl rfl⟩

/-- C2 counterexample: a cell holding a compendium item that resolves to an
item with a `use()` function, clicked while no actor is available (no parent,
no HUD current actor, no controlled token), does not invoke `use()` at all —
it warns instead — refuting the claim that every such click invokes the
item's `use()` exactly once. -/
theorem claim_C2_counterexample :
    ((⟨some ⟨some "cid", "Dash", true, true, none, none⟩, false, false⟩ :
        UseEnv).resolved.map (fun r => r.hasUse) = some true) ∧
    ((useItem ⟨some ⟨some "cid", "Dash", true, true, none, none⟩, false,
        false⟩ ⟨[], []⟩ "f3" ⟨false, fun l => l⟩).useCalls = 0) ∧
    ((useItem ⟨some ⟨some "cid", "Dash", true, true, none, none⟩, false,
        false⟩ ⟨[], []⟩ "f3" ⟨false, fun l => l⟩).warns =
      [.uiWarn "ItemCannotBeUsed"]) :=
  ⟨rfl, rfl, rfl⟩

/-- C2 (amended): for a cell whose uuid resolves and for which an actor is
available (the item's parent when embedded, else the HUD's current actor or a
controlled token's actor), the adapter delegates usage by invoking `use()` —
of the resolved item when embedded, of its embedded clone when from a
compendium — exactly once; when the resolved item has no `use()` function a
warning is shown and `use()` is not invoked. -/
theorem claim_C2 (env : UseEnv) (w : World) (fid : String)
    (beh : UseBehavior) (r : ItemData)
    (hres : env.resolved = some r)
    (hact : env.resolvedParent = true ∨ env.fallbackActor = true) :
    (r.hasUse = true → (useItem env w fid beh).useCalls = 1) ∧
    (r.hasUse = false → (useItem env w fid beh).useCalls = 0 ∧
      .uiWarn "ItemCannotBeUsed" ∈ (useItem env w fid beh).warns) := by
  have husecl := hasUse_clone r
  constructor
  · intro hu
    by_cases hp : env.resolvedParent = true
    · simp [useItem, hres, hp, hu]
    · simp only [Bool.not_eq_true] at hp
      rcases hact with hp' | hf
      · rw [hp] at hp'; exact absurd hp' (by simp)
      · have hu' : (removeId (migrateStats r)).hasUse = true := by
          rw [husecl]; exact hu
        simp [useItem, hres, hp, hf, hu']
  · intro hu
    by_cases hp : env.resolvedParent = true
    · simp [useItem, hres, hp, hu]
    · simp only [Bool.not_eq_true] at hp
      rcases hact with hp' | hf
      · rw [hp] at hp'; exact absurd hp' (by simp)
      · have hu' : (removeId (migrateStats r)).hasUse = false := by
          rw [husecl]; exact hu
        simp [useItem, hres, hp, hf, hu']

/-- C2 witness: a compendium Dash action clicked with the HUD actor available
has its clone's `use()` invoked exactly once, and a use-less embedded item
only warns. -/
theorem claim_C2_witness :
    ((useItem ⟨some ⟨some "cid", "Dash", true, true, none, none⟩, false,
        true⟩ ⟨[], []⟩ "f4" ⟨false, fun l => l⟩).useCalls = 1) ∧
    ((useItem ⟨some ⟨some "eid", "Lore", false, true, none, none⟩, true,
        false⟩ ⟨[], []⟩ "f5" ⟨false, fun l => l⟩).useCalls = 0) :=
  ⟨(claim_C2 ⟨some ⟨some "cid", "Dash", true, true, none, none⟩, false, true⟩
      ⟨[], []⟩ "f4" ⟨false, fun l => l⟩ _ rfl (Or.inr rfl)).1 rfl,
   ((claim_C2 ⟨some ⟨some "eid", "Lore", false, true, none, none⟩, true,
      false⟩ ⟨[], []⟩ "f5" ⟨false, fun l => l⟩ _ rfl (Or.inl rfl)).2 rfl).1⟩

/-- C6: when quick-access grid 0 already holds an item the call returns right
after loading, never calling `saveState`, so the persisted state is untouched;
population happens only from an empty grid 0, and then the first
`min (resolvable count) 6` uuids — at most `min n 6` of the given n — are
placed, sorted by resolved name, at slot keys `(i mod cols)-(i div cols)`. -/
theorem claim_C6 (env : PopEnv) (uuids : List String)
    (hact : env.actorPresent = true) (hne : uuids ≠ []) :
    (∀ g gs, env.loaded.quickAccessGrids = some (g :: gs) → g.items ≠ [] →
      populateQuickAccess env uuids = ⟨none, [.loadState]⟩) ∧
    (∀ g gs,
      (env.loaded.quickAccessGrids = some (g :: gs) ∧ g.items = []) ∨
        (env.loaded.quickAccessGrids = none ∧ g = defaultQAGrid ∧ gs = []) →
      g.cols ≠ 0 →
      ((populateQuickAccess env uuids).savedState =
        some ⟨some ((⟨g.rows, g.cols,
          (List.range
              (min ((sortedActions env uuids).map Prod.fst).length 6)).map
            (fun i => (slotKey (i % g.cols) (i / g.cols),
              ((sortedActions env uuids).map Prod.fst).getD i ""))⟩ : QAGrid)
          :: gs)⟩) ∧
      (sortedActions env uuids).Perm (resolvedActions env uuids) ∧
      min ((sortedActions env uuids).map Prod.fst).length 6 ≤
        min uuids.length 6 ∧
      ((∀ a b c : String, env.nameLe a b = true → env.nameLe b c = true →
          env.nameLe a c = true) →
       (∀ a b : String, (env.nameLe a b || env.nameLe b a) = true) →
       (sortedActions env uuids).Pairwise
         (fun a b => env.nameLe a.2 b.2 = true))) := by
  have hneb : uuids.isEmpty = false := by
    cases uuids with
    | nil => exact absurd rfl hne
    | cons a l => rfl
  constructor
  · intro g gs hg hitems
    have hib : g.items.isEmpty = false := by
      cases h : g.items with
      | nil => exact absurd h hitems
      | cons a l => rfl
    simp [populateQuickAccess, hact, hneb, hg, hib]
  · intro g gs hcase hc
    have hperm : (sortedActions env uuids).Perm (resolvedActions env uuids) :=
      List.perm_insertionSort _ _
    have hlen : ((sortedActions env uuids).map Prod.fst).length ≤
        uuids.length := by
      rw [List.length_map, hperm.length_eq, resolvedActions]
      exact List.length_filterMap_le _ _
    have hkey : ∀ i : Nat, jsSlotKey g.cols i =
        slotKey (i % g.cols) (i / g.cols) := fun i => by
      rw [jsSlotKey, if_neg hc]
    have hfold := foldRange_jsSet g.cols
      (fun i => ((sortedActions env uuids).map Prod.fst).getD i "")
      (min ((sortedActions env uuids).map Prod.fst).length 6)
    rcases hcase with ⟨hg, hitems⟩ | ⟨hg, hgd, hgs⟩
    · refine ⟨?_, hperm, min_le_min hlen (Nat.le_refl 6), ?_⟩
      · simp only [populateQuickAccess, hact, hneb, hg, hitems,
          Bool.not_false, Bool.false_or, List.isEmpty_nil, if_true, if_false,
          Bool.not_true, Bool.true_eq_false, Bool.false_eq_true]
        simp only [hkey]
        rw [hfold]
      · intro htrans htotal
        haveI : IsTrans (String × String)
            (fun a b => env.nameLe a.2 b.2 = true) :=
          ⟨fun a b c hab hbc => htrans a.2 b.2 c.2 hab hbc⟩
        haveI : IsTotal (String × String)
            (fun a b => env.nameLe a.2 b.2 = true) :=
          ⟨fun a b => Bool.or_eq_true_iff.mp (htotal a.2 b.2)⟩
        exact List.sorted_insertionSort _ _
    · subst hgd hgs
      refine ⟨?_, hperm, min_le_min hlen (Nat.le_refl 6), ?_⟩
      · simp only [populateQuickAccess, hact, hneb, hg,
          Bool.not_false, Bool.false_or, List.isEmpty_nil, if_true, if_false,
          Bool.not_true, Bool.true_eq_false, Bool.false_eq_true]
        simp only [hkey]
        have h0 : defaultQAGrid.items = ([] : List (String × String)) := rfl
        rw [h0, hfold]
      · intro htrans htotal
        haveI : IsTrans (String × String)
            (fun a b => env.nameLe a.2 b.2 = true) :=
          ⟨fun a b c hab hbc => htrans a.2 b.2 c.2 hab hbc⟩
        haveI : IsTotal (String × String)
            (fun a b => env.nameLe a.2 b.2 = true) :=
          ⟨fun a b => Bool.or_eq_true_iff.mp (htotal a.2 b.2)⟩
        exact List.sorted_insertionSort _ _

/-- C6 witness: an actor with no persisted quick-access state and three
configured uuids, of which two resolve, gets exactly the two resolved actions
saved, sorted by the comparator, at slot keys 0-0 and 1-0 of the default 2x3
grid. -/
theorem claim_C6_witness :
    (populateQuickAccess
      ⟨true, true,
        (fun u => if u = "a1" then some "Zeta!"
                  else if u = "a2" then some "Alf" else none),
        (fun x y => decide (x.length ≤ y.length)), ⟨none⟩⟩
      ["a1", "a2", "a3"]).savedState =
      some ⟨some [⟨2, 3, [("0-0", "a2"), ("1-0", "a1")]⟩]⟩ :=
  (((claim_C6
      ⟨true, true,
        (fun u => if u = "a1" then some "Zeta!"
                  else if u = "a2" then some "Alf" else none),
        (fun x y => decide (x.length ≤ y.length)), ⟨none⟩⟩
      ["a1", "a2", "a3"] rfl (by decide)).2
    defaultQAGrid [] (Or.inr ⟨rfl, rfl, rfl⟩) (by decide)).1).trans (by decide)

/-- C9: `onTokenCreation` emits nothing when a guard stops it, and otherwise
its trace begins with the fixed 200 ms delay followed by the CPR
configuration read; `populateQuickAccess` saves, then awaits the fixed 50 ms
delay, and only then refreshes — whenever a save happened the trace ends with
`saveState`, `delay 50` and then the conditional refresh, none of which occur
earlier, and a refresh only ever happens after a save. -/
theorem claim_C9 (tenv : TokEnv) (penv : PopEnv) (uuids : List String) :
    (onTokenCreation tenv = [] ∨
      ∃ rest, onTokenCreation tenv =
        .delayMs 200 :: .readCPRConfig :: rest) ∧
    ((populateQuickAccess penv uuids).savedState.isSome = true →
      ∃ pre, (populateQuickAccess penv uuids).trace =
          pre ++ [.saveState, .delayMs 50] ++
            (if penv.currentActorMatches = true then [.refreshHUD] else []) ∧
        QEv.saveState ∉ pre ∧ QEv.delayMs 50 ∉ pre ∧
        QEv.refreshHUD ∉ pre) ∧
    (QEv.refreshHUD ∈ (populateQuickAccess penv uuids).trace →
      (populateQuickAccess penv uuids).savedState.isSome = true) := by
  refine ⟨?_, ?_, ?_⟩
  · by_cases h1 : tenv.actorPresent = true
    · by_cases h2 : tenv.enableAutoPopulate = true
      · by_cases h3 : tenv.cprActive = true
        · by_cases h4 : tenv.selectedActions.isEmpty = true
          · rcases hp : tenv.packIndex with _ | idx
            · exact Or.inr ⟨[.packLookup, .consoleWarnEv],
                by simp [onTokenCreation, h1, h2, h3, h4, hp]⟩
            · by_cases h5 : tenv.getIndexThrows = true
              · exact Or.inr ⟨[.packLookup, .consoleErrorEv],
                  by simp [onTokenCreation, h1, h2, h3, h4, hp, h5]⟩
              · simp only [Bool.not_eq_true] at h5
                exact Or.inr ⟨.packLookup ::
                  (populateQuickAccess tenv.popEnv
                    (((List.insertionSort
                      (fun a b => tenv.popEnv.nameLe a.2 b.2 = true)
                      (idx.map (fun e =>
                        ("Compendium." ++
                          (getCPRConfig tenv.rulesVersion).packId ++
                          ".Item." ++ e.1, e.2)))).take 6).map
                      Prod.fst)).trace,
                  by simp [onTokenCreation, h1, h2, h3, h4, hp, h5]⟩
          · simp only [Bool.not_eq_true] at h4
            exact Or.inr ⟨(populateQuickAccess tenv.popEnv
                (tenv.selectedActions.take 6)).trace,
              by simp [onTokenCreation, h1, h2, h3, h4]⟩
        · simp only [Bool.not_eq_true] at h3
          exact Or.inl (by simp [onTokenCreation, h1, h2, h3])
      · simp only [Bool.not_eq_true] at h2
        exact Or.inl (by simp [onTokenCreation, h1, h2])
    · simp only [Bool.not_eq_true] at h1
      exact Or.inl (by simp [onTokenCreation, h1])
  · intro hs
    by_cases h1 : (!penv.actorPresent || uuids.isEmpty) = true
    · simp [populateQuickAccess, h1] at hs
    · rcases hg : penv.loaded.quickAccessGrids with _ | gs
      · refine ⟨.loadState :: uuids.map QEv.resolveUuid, ?_, ?_, ?_, ?_⟩
        · simp [populateQuickAccess, h1, hg]
        · simp
        · simp
        · simp
      · rcases gs with _ | ⟨g, rest⟩
        · simp [populateQuickAccess, h1, hg] at hs
        · by_cases hi : g.items.isEmpty = true
          · refine ⟨.loadState :: uuids.map QEv.resolveUuid, ?_, ?_, ?_, ?_⟩
            · simp [populateQuickAccess, h1, hg, hi]
            · simp
            · simp
            · simp
          · simp [populateQuickAccess, h1, hg, hi] at hs
  · intro hr
    by_cases h1 : (!penv.actorPresent || uuids.isEmpty) = true
    · simp [populateQuickAccess, h1] at hr
    · rcases hg : penv.loaded.quickAccessGrids with _ | gs
      · simp [populateQuickAccess, h1, hg]
      · rcases gs with _ | ⟨g, rest⟩
        · simp [populateQuickAccess, h1, hg] at hr
        · by_cases hi : g.items.isEmpty = true
          · simp [populateQuickAccess, h1, hg, hi]
          · simp [populateQuickAccess, h1, hg, hi] at hr

/-- C9 witness: a concrete token creation's trace starts with the 200 ms delay
then the configuration read, and a concrete population saves before the 50 ms
delay before the refresh. -/
theorem claim_C9_witness :
    (∃ rest, onTokenCreation
        ⟨true, true, true, "legacy", ["u1"], none, false,
          ⟨true, true, (fun u => if u = "u1" then some "Dash" else none),
            (fun x y => decide (x.length ≤ y.length)), ⟨none⟩⟩⟩ =
      .delayMs 200 :: .readCPRConfig :: rest) ∧
    (∃ pre, (populateQuickAccess
        ⟨true, true, (fun u => if u = "u1" then some "Dash" else none),
          (fun x y => decide (x.length ≤ y.length)), ⟨none⟩⟩ ["u1"]).trace =
          pre ++ [.saveState, .delayMs 50] ++ [.refreshHUD] ∧
        QEv.saveState ∉ pre ∧ QEv.delayMs 50 ∉ pre ∧ QEv.refreshHUD ∉ pre) :=
  ⟨(claim_C9
      ⟨true, true, true, "legacy", ["u1"], none, false,
        ⟨true, true, (fun u => if u = "u1" then some "Dash" else none),
          (fun x y => decide (x.length ≤ y.length)), ⟨none⟩⟩⟩
      ⟨true, true, (fun u => if u = "u1" then some "Dash" else none),
        (fun x y => decide (x.length ≤ y.length)), ⟨none⟩⟩
      ["u1"]).1.resolve_left (by decide),
   by
    have h := (claim_C9
      ⟨true, true, true, "legacy", ["u1"], none, false,
        ⟨true, true, (fun u => if u = "u1" then some "Dash" else none),
          (fun x y => decide (x.length ≤ y.length)), ⟨none⟩⟩⟩
      ⟨true, true, (fun u => if u = "u1" then some "Dash" else none),
        (fun x y => decide (x.length ≤ y.length)), ⟨none⟩⟩
      ["u1"]).2.1 (by decide)
    simpa using h⟩

end BG3Hud
